import Mathlib

/-!
# Verification of the vprof code-heatmap renderer

Shallow embedding of `src/vprof/frontend/code_heatmap.js`.

Modelling conventions:
* JS numbers carried by the report (times, counts) are modelled as `ℚ`;
  a possibly-absent JS value (object property access that may yield
  `undefined`) is `Option ℚ`, with `none` for `undefined`.
* JS objects used as integer-keyed maps (`timeMap`, `countMap`) are
  association lists `List (Nat × Option ℚ)` in key-insertion order; an
  assignment `m[k] = v` adds the pair `(k, v)` even when `v` is `undefined`.
* The external collaborators are abstracted as function parameters:
  `hl` for `hljs.highlight('python', ·).value` (pure per the module
  boundary), `str` for JS number-to-string coercion inside string
  concatenation.
* The d3 colour scale (`d3scale.scaleLog().domain(...).range(...)`) is
  modelled separately over `ℝ`, following the d3-scale 1.x / d3-interpolate
  1.x / d3-color 1.x sources that the module's d3 dependencies resolve to
  (`log.js` `deinterpolate`, `rgb.js` `nogamma`, and `d3-color`'s
  `rgb` formatting which rounds and clamps each channel to 0..255).
-/

namespace CodeHeatmapSpec

/-- One entry of `stats.srcCode`: either `['line', lineNumber, text]`
or `['skip', count]`. -/
inductive SrcEntry where
  | line (lineNumber : Nat) (text : String)
  | skip (count : Nat)
deriving DecidableEq

/-- JS truthiness of a possibly-absent number: `undefined` and `0` are
falsy, every other number is truthy. -/
def jsTruthy : Option ℚ → Bool
  | none => false
  | some x => !(x == 0)

/-- The per-file statistics object consumed by `renderCode_`
(`stats.srcCode`, `stats.heatmap`, `stats.executionCount`). -/
structure FileStats where
  name : String
  srcCode : List SrcEntry
  heatmap : Nat → Option ℚ
  executionCount : Nat → Option ℚ

/-- The fields the `CodeHeatmap` constructor stores on `this`; the d3
scale `heatmapScale_` is kept abstract at this layer (its real-valued
model is `heatmapScale` below). -/
structure CodeHeatmapObj where
  MIN_RUN_TIME_ : ℚ
  MAX_RUN_TIME_ : ℚ
  MIN_RUN_COLOR_ : String
  MAX_RUN_COLOR_ : String
  heatmapScale_ : ℚ → String

/-- `CodeHeatmap.prototype.formatSrcLine_`: builds one row of markup.
The background colour is `runCount ? this.heatmapScale_(runCount) : ''`. -/
def formatSrcLine_ (hl : String → String) (self : CodeHeatmapObj)
    (lineNumber : Nat) (codeLine : String) (runCount : Option ℚ) : String :=
  let highlightedLine := hl codeLine
  let backgroundColor := if jsTruthy runCount then self.heatmapScale_ (runCount.getD 0) else ""
  "<div class='heatmap-src-line-normal' style='background-color: " ++ backgroundColor ++ "'>"
    ++ "<div class='heatmap-src-line-number'>" ++ toString lineNumber ++ "</div>"
    ++ "<div class='heatmap-src-line-code'>" ++ highlightedLine ++ "</div>"
    ++ "</div>"

/-- The collapsed marker `renderCode_` pushes for a `'skip'` entry. -/
def skipMarker (count : Nat) : String :=
  "<div class='heatmap-skip-line'>" ++ toString count ++ " lines skipped</div>"

/-- The loop body of `renderCode_`, with the remaining entries and the
current value of `srcIndex` explicit; returns `(outputCode, timeMap,
countMap)` with `outputCode` not yet joined. -/
def renderCodeAux (hl : String → String) (self : CodeHeatmapObj)
    (hm ec : Nat → Option ℚ) :
    List SrcEntry → Nat → List String × List (Nat × Option ℚ) × List (Nat × Option ℚ)
  | [], _ => ([], [], [])
  | SrcEntry.line n text :: rest, srcIndex =>
    let r := renderCodeAux hl self hm ec rest (srcIndex + 1)
    (formatSrcLine_ hl self n text (hm n) :: r.1, (srcIndex, hm n) :: r.2.1,
      (srcIndex, ec n) :: r.2.2)
  | SrcEntry.skip k :: rest, srcIndex =>
    let r := renderCodeAux hl self hm ec rest srcIndex
    (skipMarker k :: r.1, r.2.1, r.2.2)

/-- The object `renderCode_` returns: `srcCode` markup plus the two
position-keyed lookup tables. -/
structure RenderedSource where
  srcCode : String
  timeMap : List (Nat × Option ℚ)
  countMap : List (Nat × Option ℚ)

/-- `CodeHeatmap.prototype.renderCode_`. -/
def renderCode_ (hl : String → String) (self : CodeHeatmapObj)
    (stats : FileStats) : RenderedSource :=
  let r := renderCodeAux hl self stats.heatmap stats.executionCount stats.srcCode 0
  ⟨String.join r.1, r.2.1, r.2.2⟩

/-- Original line numbers of the `'line'` entries, in entry order. -/
def lineNums : List SrcEntry → List Nat
  | [] => []
  | SrcEntry.line n _ :: rest => n :: lineNums rest
  | SrcEntry.skip _ :: rest => lineNums rest

/-- Number of `'skip'` entries' counts, in entry order. -/
def skipCounts : List SrcEntry → List Nat
  | [] => []
  | SrcEntry.line _ _ :: rest => skipCounts rest
  | SrcEntry.skip k :: rest => k :: skipCounts rest

/-- JS property read on a modelled object: `some v` when the key was
assigned (`v` may itself be `none` = `undefined`), `none` when the key
was never assigned. -/
def objGet (m : List (Nat × Option ℚ)) (k : Nat) : Option (Option ℚ) :=
  (m.find? (fun p => p.1 == k)).map Prod.snd

/-- JS expression `m[k]` as a value: an unassigned key reads as
`undefined`. -/
def jsGet (m : List (Nat × Option ℚ)) (k : Nat) : Option ℚ :=
  (objGet m k).getD none

/-- Whether an entry carries the `'skip'` tag. -/
def isSkip : SrcEntry → Bool
  | SrcEntry.line _ _ => false
  | SrcEntry.skip _ => true

/-- A rendered row element; the only DOM state the handlers touch is
its `class` attribute. -/
structure RowEl where
  cls : String
deriving DecidableEq

/-- The shared floating tooltip element: `class` attribute, inner HTML,
and `left`/`top` style positions. -/
structure TooltipEl where
  cls : String
  html : String
  left : ℚ
  top : ℚ
deriving DecidableEq

/-- The d3 mouse event the handlers read (`d3select.event.pageX/pageY`). -/
structure MouseEvent where
  pageX : ℚ
  pageY : ℚ

/-- The JS expression `100 * (lineRuntime / totalTime)`; `undefined`
propagates (as NaN), modelled by `Option.map`. -/
def pct (lineRuntime : Option ℚ) (totalTime : ℚ) : Option ℚ :=
  lineRuntime.map (fun t => 100 * (t / totalTime))

/-- The tooltip inner HTML built by `showTooltip_`, with `str` the JS
number-to-string coercion used by `+` on strings. -/
def tooltipHtml (str : Option ℚ → String) (lineRuntime lineRuncount : Option ℚ)
    (totalTime : ℚ) : String :=
  "<p><b>Time spent: </b>" ++ str lineRuntime ++ " s</p>"
    ++ "<p><b>Total running time: </b>" ++ str (some totalTime) ++ " s</p>"
    ++ "<p><b>Percentage: </b>" ++ str (pct lineRuntime totalTime) ++ "%</p>"
    ++ "<p><b>Run count: </b>" ++ str lineRuncount ++ "</p>"

/-- `CodeHeatmap.prototype.showTooltip_`: highlights the hovered row and
makes the tooltip visible, filled and positioned at the pointer. -/
def showTooltip_ (str : Option ℚ → String) (ev : MouseEvent)
    (lineRuntime lineRuncount : Option ℚ) (totalTime : ℚ)
    (_st : RowEl × TooltipEl) : RowEl × TooltipEl :=
  (⟨"heatmap-src-line-highlight"⟩,
    ⟨"content-tooltip content-tooltip-visible",
      tooltipHtml str lineRuntime lineRuncount totalTime, ev.pageX, ev.pageY⟩)

/-- `CodeHeatmap.prototype.hideTooltip_`: restores the row's normal
class and hides the tooltip (its content and position are untouched). -/
def hideTooltip_ (st : RowEl × TooltipEl) : RowEl × TooltipEl :=
  (⟨"heatmap-src-line-normal"⟩,
    ⟨"content-tooltip content-tooltip-invisible", st.2.html, st.2.left, st.2.top⟩)

/-- The `mouseover` handler bound in `render` for the row at reindexed
position `j` of a rendered file: guarded by the truthiness of
`renderedSources[i].countMap[j]`. -/
def onMouseover (str : Option ℚ → String) (rendered : RenderedSource)
    (runTime : ℚ) (j : Nat) (ev : MouseEvent)
    (st : RowEl × TooltipEl) : RowEl × TooltipEl :=
  if jsTruthy (jsGet rendered.countMap j) then
    showTooltip_ str ev (jsGet rendered.timeMap j) (jsGet rendered.countMap j) runTime st
  else st

/-- The `mouseout` handler bound in `render`. -/
def onMouseout (st : RowEl × TooltipEl) : RowEl × TooltipEl :=
  hideTooltip_ st

/-- The class-selector prefix of every interactive row emitted by
`formatSrcLine_`; `render` binds hover handlers via
`selectAll('.heatmap-src-line-normal')`, which the generated markup
matches exactly when it opens with this class. -/
def normalRowMark : String := "<div class='heatmap-src-line-normal'"

/-- Whether a generated markup fragment is an interactive row, i.e. is
selected by `selectAll('.heatmap-src-line-normal')`. -/
def isNormalRow (s : String) : Bool := normalRowMark.data.isPrefixOf s.data

/-- The fragments of a rendered file that get hover handlers bound. -/
def hoverTargets (outputs : List String) : List String :=
  outputs.filter isNormalRow

/-- Markup of a single entry (the loop body of `renderCode_` restricted
to its output list). -/
def entryMarkup (hl : String → String) (self : CodeHeatmapObj)
    (hm : Nat → Option ℚ) : SrcEntry → String
  | SrcEntry.line n text => formatSrcLine_ hl self n text (hm n)
  | SrcEntry.skip k => skipMarker k

/-- The `outputCode` array of `renderCode_` before it is joined: one
markup fragment per source entry. -/
def renderOutputs (hl : String → String) (self : CodeHeatmapObj)
    (stats : FileStats) : List String :=
  (renderCodeAux hl self stats.heatmap stats.executionCount stats.srcCode 0).1

/-- A colour mapper that never produces a colour: what `formatSrcLine_`
effectively uses on the `runCount`-falsy branch. -/
def emptyScale : ℚ → String := fun _ => ""

/-- State-passing view of `formatSrcLine_`: its JS body contains no
assignment to `this`, to its arguments, or to any global, so the
object is returned unchanged next to the produced string. -/
def formatSrcLineSt (hl : String → String) (self : CodeHeatmapObj)
    (lineNumber : Nat) (codeLine : String) (runCount : Option ℚ) :
    CodeHeatmapObj × String :=
  (self, formatSrcLine_ hl self lineNumber codeLine runCount)

section ColorScale

/-!
The colour mapper built in the `CodeHeatmap` constructor:
`d3scale.scaleLog().domain([MIN_RUN_TIME, MAX_RUN_TIME]).range([MIN_RUN_COLOR, MAX_RUN_COLOR])`,
modelled from the d3-scale 1.x sources (its `log.js` `deinterpolate`),
d3-interpolate 1.x (`rgb.js`, gamma 1, per-channel `nogamma`) and
d3-color 1.x (`Rgb` formatting: each channel is
`Math.max(0, Math.min(255, Math.round(channel)))`).
-/

/-- `this.MIN_RUN_TIME = 0.000001`. -/
noncomputable def MIN_RUN_TIME : ℝ := 0.000001

/-- d3-scale 1.x `log.js` `deinterpolate(a, b)`:
`(b = Math.log(b / a)) ? x => Math.log(x / a) / b : constant(b)`;
when `log(b / a)` is `0` the returned function is constantly `0`. -/
noncomputable def deinterpolateLog (a b x : ℝ) : ℝ :=
  if Real.log (b / a) = 0 then 0 else Real.log (x / a) / Real.log (b / a)

/-- `Math.round`: floor of `x + 1/2`. -/
noncomputable def jsRound (x : ℝ) : ℤ := ⌊x + 1 / 2⌋

/-- d3-color 1.x channel formatting: round, then clamp to `0..255`. -/
noncomputable def clamp255 (x : ℝ) : ℤ := max 0 (min 255 (jsRound x))

/-- d3-interpolate 1.x `nogamma(a, b)`:
`(b - a) ? linear(a, b) : constant(a)` with `linear(a, b)(t) = a + t*(b-a)`. -/
noncomputable def nogamma (a b t : ℝ) : ℝ :=
  if b - a = 0 then a else a + t * (b - a)

/-- A displayed colour: the three 8-bit channels of the `rgb(r, g, b)`
string d3-interpolate produces. -/
structure Rgb where
  r : ℤ
  g : ℤ
  b : ℤ
deriving DecidableEq

/-- `this.MIN_RUN_COLOR = '#ebfaeb'` as parsed by d3-color. -/
def MIN_RUN_COLOR : Rgb := ⟨235, 250, 235⟩

/-- `this.MAX_RUN_COLOR = '#47d147'` as parsed by d3-color. -/
def MAX_RUN_COLOR : Rgb := ⟨71, 209, 71⟩

/-- d3-interpolate 1.x `interpolateRgb(s, e)(t)`, including the final
rounding/clamping done when the interpolated colour is stringified. -/
noncomputable def interpolateRgb (s e : Rgb) (t : ℝ) : Rgb :=
  ⟨clamp255 (nogamma s.r e.r t), clamp255 (nogamma s.g e.g t),
    clamp255 (nogamma s.b e.b t)⟩

/-- `this.heatmapScale_` as a function of the report's `runTime`
(`MAX_RUN_TIME`): log-deinterpolate over
`[MIN_RUN_TIME, maxRunTime]`, then rgb-interpolate over
`[MIN_RUN_COLOR, MAX_RUN_COLOR]`. -/
noncomputable def heatmapScale (maxRunTime x : ℝ) : Rgb :=
  interpolateRgb MIN_RUN_COLOR MAX_RUN_COLOR (deinterpolateLog MIN_RUN_TIME maxRunTime x)

/-- Colour `a` is at least as light as colour `b`: at least as close to
the light endpoint on every channel (both endpoints' channels decrease
from light to saturated, so lighter means larger channels). -/
def weaklyLighter (a b : Rgb) : Prop :=
  b.r ≤ a.r ∧ b.g ≤ a.g ∧ b.b ≤ a.b

/-- Colour `a` is strictly lighter than colour `b`. -/
def strictlyLighter (a b : Rgb) : Prop :=
  weaklyLighter a b ∧ a ≠ b

end ColorScale

/-! ## Structure of the reindexer's output -/

/-- Values listed with consecutive positions starting at `base` — the
shape of the lookup tables `renderCode_` builds. -/
def mapWithPos : List (Option ℚ) → Nat → List (Nat × Option ℚ)
  | [], _ => []
  | v :: rest, base => (base, v) :: mapWithPos rest (base + 1)

theorem renderCodeAux_outputs (hl : String → String) (self : CodeHeatmapObj)
    (hm ec : Nat → Option ℚ) (entries : List SrcEntry) (base : Nat) :
    (renderCodeAux hl self hm ec entries base).1 = entries.map (entryMarkup hl self hm) := by
  induction entries generalizing base with
  | nil => rfl
  | cons e rest ih =>
    cases e with
    | line n text => simp [renderCodeAux, entryMarkup, ih]
    | skip k => simp [renderCodeAux, entryMarkup, ih]

theorem renderCodeAux_timeMap (hl : String → String) (self : CodeHeatmapObj)
    (hm ec : Nat → Option ℚ) (entries : List SrcEntry) (base : Nat) :
    (renderCodeAux hl self hm ec entries base).2.1 =
      mapWithPos ((lineNums entries).map hm) base := by
  induction entries generalizing base with
  | nil => rfl
  | cons e rest ih =>
    cases e with
    | line n text => simp [renderCodeAux, lineNums, mapWithPos, ih]
    | skip k => simp [renderCodeAux, lineNums, ih]

theorem renderCodeAux_countMap (hl : String → String) (self : CodeHeatmapObj)
    (hm ec : Nat → Option ℚ) (entries : List SrcEntry) (base : Nat) :
    (renderCodeAux hl self hm ec entries base).2.2 =
      mapWithPos ((lineNums entries).map ec) base := by
  induction entries generalizing base with
  | nil => rfl
  | cons e rest ih =>
    cases e with
    | line n text => simp [renderCodeAux, lineNums, mapWithPos, ih]
    | skip k => simp [renderCodeAux, lineNums, ih]

theorem mapWithPos_keys (vals : List (Option ℚ)) (base : Nat) :
    (mapWithPos vals base).map Prod.fst = (List.range vals.length).map (base + ·) := by
  induction vals generalizing base with
  | nil => rfl
  | cons v rest ih =>
    simp only [mapWithPos, List.map_cons, List.length_cons, List.range_succ_eq_map,
      List.map_map, ih, List.cons.injEq]
    refine ⟨by omega, ?_⟩
    apply List.map_congr_left
    intro i _
    simp [Function.comp]
    omega

theorem mapWithPos_values (vals : List (Option ℚ)) (base : Nat) :
    (mapWithPos vals base).map Prod.snd = vals := by
  induction vals generalizing base with
  | nil => rfl
  | cons v rest ih => simp [mapWithPos, ih]

theorem mapWithPos_objGet (vals : List (Option ℚ)) (base j : Nat) :
    objGet (mapWithPos vals base) (base + j) = vals.get? j := by
  induction vals generalizing base j with
  | nil => simp [mapWithPos, objGet]
  | cons v rest ih =>
    cases j with
    | zero => simp [mapWithPos, objGet, List.find?]
    | succ k =>
      have h2 : base + (k + 1) = base + 1 + k := by omega
      have hne : (base == base + 1 + k) = false := by simp; omega
      simp only [mapWithPos, objGet, h2, List.find?, hne, List.get?_cons_succ]
      exact ih (base + 1) k

theorem allSkip_lineNums (entries : List SrcEntry)
    (h : ∀ e ∈ entries, isSkip e = true) : lineNums entries = [] := by
  induction entries with
  | nil => rfl
  | cons e rest ih =>
    cases e with
    | line n text => exact absurd (h _ (List.mem_cons_self _ _)) (by simp [isSkip])
    | skip k =>
      simp only [lineNums]
      exact ih fun e he => h e (List.mem_cons_of_mem _ he)

theorem allSkip_markup (hl : String → String) (self : CodeHeatmapObj)
    (hm : Nat → Option ℚ) (entries : List SrcEntry)
    (h : ∀ e ∈ entries, isSkip e = true) :
    entries.map (entryMarkup hl self hm) = (skipCounts entries).map skipMarker := by
  induction entries with
  | nil => rfl
  | cons e rest ih =>
    cases e with
    | line n text => exact absurd (h _ (List.mem_cons_self _ _)) (by simp [isSkip])
    | skip k =>
      simp only [List.map_cons, skipCounts, entryMarkup]
      exact congrArg _ (ih fun e he => h e (List.mem_cons_of_mem _ he))

/-! ## Colour-scale lemmas -/

theorem clamp255_eq (x : ℝ) (n : ℤ) (h1 : (n:ℝ) ≤ x + 1/2) (h2 : x + 1/2 < (n:ℝ) + 1)
    (h3 : 0 ≤ n) (h4 : n ≤ 255) : clamp255 x = n := by
  unfold clamp255 jsRound
  have hf : ⌊x + 1/2⌋ = n := by
    rw [Int.floor_eq_iff]
    exact ⟨h1, by exact_mod_cast h2⟩
  rw [hf]
  omega

theorem chan_eval (a b u : ℝ) (n : ℤ) (hba : b - a ≠ 0)
    (h1 : (n:ℝ) ≤ a + u * (b - a) + 1/2) (h2 : a + u * (b - a) + 1/2 < (n:ℝ) + 1)
    (h3 : 0 ≤ n) (h4 : n ≤ 255) : clamp255 (nogamma a b u) = n := by
  unfold nogamma
  rw [if_neg hba]
  exact clamp255_eq _ _ h1 h2 h3 h4

theorem deinterpolateLog_rpow (a b u : ℝ) (ha : 0 < a) (hb : 1 < b / a) :
    deinterpolateLog a b (a * (b / a) ^ u) = u := by
  have hba : 0 < b / a := lt_trans one_pos hb
  have hlog : Real.log (b / a) ≠ 0 := ne_of_gt (Real.log_pos hb)
  unfold deinterpolateLog
  rw [if_neg hlog]
  rw [mul_div_cancel_left₀ _ (ne_of_gt ha), Real.log_rpow hba]
  exact mul_div_cancel_right₀ u hlog

theorem min_run_time_pos : (0:ℝ) < MIN_RUN_TIME := by unfold MIN_RUN_TIME; norm_num

theorem ratio_gt_one : (1:ℝ) < 10 / MIN_RUN_TIME := by unfold MIN_RUN_TIME; norm_num

theorem clamp255_mono {x y : ℝ} (h : x ≤ y) : clamp255 x ≤ clamp255 y := by
  unfold clamp255 jsRound
  have hf := Int.floor_mono (add_le_add_right h (1/2 : ℝ))
  omega

theorem chan_anti (a b u1 u2 : ℝ) (hba : b - a < 0) (h : u1 ≤ u2) :
    nogamma a b u2 ≤ nogamma a b u1 := by
  unfold nogamma
  rw [if_neg (ne_of_lt hba), if_neg (ne_of_lt hba)]
  nlinarith

/-- First refuting time for C5: `1e-6 * (1e7)^(1/4)` seconds, whose
log-interpolation parameter inside the domain `[1e-6, 10]` is exactly
`1/4`. -/
noncomputable def cexT1 : ℝ := MIN_RUN_TIME * ((10:ℝ) / MIN_RUN_TIME) ^ ((1:ℝ)/4)

/-- Second refuting time for C5: `1e-6 * (1e7)^(2501/10000)` seconds,
strictly larger than `cexT1` but rounding to the same displayed colour. -/
noncomputable def cexT2 : ℝ := MIN_RUN_TIME * ((10:ℝ) / MIN_RUN_TIME) ^ ((2501:ℝ)/10000)

theorem hscale_cexT1 : heatmapScale 10 cexT1 = ⟨194, 240, 194⟩ := by
  unfold heatmapScale cexT1
  rw [deinterpolateLog_rpow _ _ _ min_run_time_pos ratio_gt_one]
  unfold interpolateRgb MIN_RUN_COLOR MAX_RUN_COLOR
  have hr : clamp255 (nogamma ((235:ℤ):ℝ) ((71:ℤ):ℝ) ((1:ℝ)/4)) = 194 :=
    chan_eval _ _ _ _ (by norm_num) (by norm_num) (by norm_num) (by norm_num) (by norm_num)
  have hg : clamp255 (nogamma ((250:ℤ):ℝ) ((209:ℤ):ℝ) ((1:ℝ)/4)) = 240 :=
    chan_eval _ _ _ _ (by norm_num) (by norm_num) (by norm_num) (by norm_num) (by norm_num)
  simp only [hr, hg]

theorem hscale_cexT2 : heatmapScale 10 cexT2 = ⟨194, 240, 194⟩ := by
  unfold heatmapScale cexT2
  rw [deinterpolateLog_rpow _ _ _ min_run_time_pos ratio_gt_one]
  unfold interpolateRgb MIN_RUN_COLOR MAX_RUN_COLOR
  have hr : clamp255 (nogamma ((235:ℤ):ℝ) ((71:ℤ):ℝ) ((2501:ℝ)/10000)) = 194 :=
    chan_eval _ _ _ _ (by norm_num) (by norm_num) (by norm_num) (by norm_num) (by norm_num)
  have hg : clamp255 (nogamma ((250:ℤ):ℝ) ((209:ℤ):ℝ) ((2501:ℝ)/10000)) = 240 :=
    chan_eval _ _ _ _ (by norm_num) (by norm_num) (by norm_num) (by norm_num) (by norm_num)
  simp only [hr, hg]

/-! ## Claim theorems -/

/-- C1: the Line Reindexer (`renderCode_`) assigns exactly one position
to each `'line'` entry, numbering them `0, 1, …, N-1` in the order the
`'line'` entries appear in the source entries, and `'skip'` entries never
advance the position counter and contribute no keys to `timeMap` or
`countMap`: both tables list exactly the keys `0..N-1` in that order,
and the value at the `j`-th key is the `j`-th `'line'` entry's lookup. -/
theorem claim_C1_reindexed_positions (hl : String → String)
    (self : CodeHeatmapObj) (stats : FileStats) :
    (renderCode_ hl self stats).timeMap.map Prod.fst
        = List.range (lineNums stats.srcCode).length
    ∧ (renderCode_ hl self stats).countMap.map Prod.fst
        = List.range (lineNums stats.srcCode).length
    ∧ (renderCode_ hl self stats).timeMap.map Prod.snd
        = (lineNums stats.srcCode).map stats.heatmap
    ∧ (renderCode_ hl self stats).countMap.map Prod.snd
        = (lineNums stats.srcCode).map stats.executionCount := by
  refine ⟨?_, ?_, ?_, ?_⟩ <;>
    simp [renderCode_, renderCodeAux_timeMap, renderCodeAux_countMap,
      mapWithPos_keys, mapWithPos_values]

/-- C2: for every `'line'` entry with a recorded time and count, the
lookup tables at that entry's reindexed position return exactly the
original `heatmap[lineNumber]` and `executionCount[lineNumber]`. -/
theorem claim_C2_lookup_roundtrip (hl : String → String)
    (self : CodeHeatmapObj) (stats : FileStats) (j ℓ : Nat) (t c : ℚ)
    (hj : (lineNums stats.srcCode).get? j = some ℓ)
    (ht : stats.heatmap ℓ = some t) (hc : stats.executionCount ℓ = some c) :
    objGet (renderCode_ hl self stats).timeMap j = some (some t)
    ∧ objGet (renderCode_ hl self stats).countMap j = some (some c) := by
  have h1 : objGet (renderCode_ hl self stats).timeMap j
      = ((lineNums stats.srcCode).map stats.heatmap).get? j := by
    have := mapWithPos_objGet ((lineNums stats.srcCode).map stats.heatmap) 0 j
    simpa [renderCode_, renderCodeAux_timeMap] using this
  have h2 : objGet (renderCode_ hl self stats).countMap j
      = ((lineNums stats.srcCode).map stats.executionCount).get? j := by
    have := mapWithPos_objGet ((lineNums stats.srcCode).map stats.executionCount) 0 j
    simpa [renderCode_, renderCodeAux_countMap] using this
  rw [h1, h2, List.get?_map, List.get?_map, hj]
  simp [ht, hc]

/-- C10: a file whose entries are all `'skip'` renders without error to
empty lookup tables and markup that is exactly the concatenation of the
skip markers. -/
theorem claim_C10_all_skipped (hl : String → String) (self : CodeHeatmapObj)
    (stats : FileStats) (h : ∀ e ∈ stats.srcCode, isSkip e = true) :
    (renderCode_ hl self stats).timeMap = []
    ∧ (renderCode_ hl self stats).countMap = []
    ∧ (renderCode_ hl self stats).srcCode
        = String.join ((skipCounts stats.srcCode).map skipMarker) := by
  refine ⟨?_, ?_, ?_⟩
  · simp [renderCode_, renderCodeAux_timeMap, allSkip_lineNums _ h, mapWithPos]
  · simp [renderCode_, renderCodeAux_countMap, allSkip_lineNums _ h, mapWithPos]
  · simp [renderCode_, renderCodeAux_outputs, allSkip_markup hl self _ _ h]

/-- C3: hover-enter on a row whose position has no recorded time/count
pair leaves the row and the tooltip exactly as they were, and hover-enter
on a position with recorded data highlights the row and fills the visible
tooltip with exactly the line time, the report's total run time, the
percentage `100 * (time / totalRunTime)` unrounded, and the execution
count, positioned at the pointer. The hypothesis states the report's
consistency: a position has a truthy recorded time exactly when it has a
truthy recorded count (the two tables are populated together from a
report where executed lines carry both values). -/
theorem claim_C3_hover_enter (str : Option ℚ → String)
    (rendered : RenderedSource) (runTime : ℚ) (j : Nat) (ev : MouseEvent)
    (st : RowEl × TooltipEl)
    (hcons : jsTruthy (jsGet rendered.timeMap j) = jsTruthy (jsGet rendered.countMap j)) :
    ((jsTruthy (jsGet rendered.timeMap j) && jsTruthy (jsGet rendered.countMap j)) = false →
      onMouseover str rendered runTime j ev st = st)
    ∧ (∀ t c : ℚ, jsGet rendered.timeMap j = some t →
        jsGet rendered.countMap j = some c →
        (jsTruthy (jsGet rendered.timeMap j) && jsTruthy (jsGet rendered.countMap j)) = true →
        onMouseover str rendered runTime j ev st
          = (⟨"heatmap-src-line-highlight"⟩,
              ⟨"content-tooltip content-tooltip-visible",
                "<p><b>Time spent: </b>" ++ str (some t) ++ " s</p>"
                  ++ "<p><b>Total running time: </b>" ++ str (some runTime) ++ " s</p>"
                  ++ "<p><b>Percentage: </b>" ++ str (some (100 * (t / runTime))) ++ "%</p>"
                  ++ "<p><b>Run count: </b>" ++ str (some c) ++ "</p>",
                ev.pageX, ev.pageY⟩)) := by
  constructor
  · intro hfalse
    rw [hcons, Bool.and_self] at hfalse
    simp [onMouseover, hfalse]
  · intro t c ht hc htrue
    rw [hcons, Bool.and_self, hc] at htrue
    simp [onMouseover, htrue, showTooltip_, tooltipHtml, pct, ht, hc]

/-- C6: a line whose time is zero or absent never reaches the colour
mapper: `formatSrcLine_`'s result is independent of the mapper (any two
mappers give the same markup) and equals the no-background row. -/
theorem claim_C6_no_log_for_unexecuted (hl : String → String)
    (scale scale' : ℚ → String) (mn mx : ℚ) (c1 c2 : String)
    (lineNumber : Nat) (codeLine : String) (runCount : Option ℚ)
    (h : jsTruthy runCount = false) :
    formatSrcLine_ hl ⟨mn, mx, c1, c2, scale⟩ lineNumber codeLine runCount
      = formatSrcLine_ hl ⟨mn, mx, c1, c2, scale'⟩ lineNumber codeLine runCount
    ∧ formatSrcLine_ hl ⟨mn, mx, c1, c2, scale⟩ lineNumber codeLine runCount
      = formatSrcLine_ hl ⟨mn, mx, c1, c2, emptyScale⟩ lineNumber codeLine none := by
  constructor <;> (simp only [formatSrcLine_, h]; simp [emptyScale, jsTruthy])

/-- C7: hover-exit unconditionally restores the row's normal class and
the tooltip's invisible class, is idempotent, and does so regardless of
what the preceding hover-enter did. -/
theorem claim_C7_hover_exit (st : RowEl × TooltipEl)
    (str : Option ℚ → String) (rendered : RenderedSource) (runTime : ℚ)
    (j : Nat) (ev : MouseEvent) :
    onMouseout (onMouseout st) = onMouseout st
    ∧ (onMouseout st).1.cls = "heatmap-src-line-normal"
    ∧ (onMouseout st).2.cls = "content-tooltip content-tooltip-invisible"
    ∧ (onMouseout (onMouseover str rendered runTime j ev st)).1.cls
        = "heatmap-src-line-normal"
    ∧ (onMouseout (onMouseover str rendered runTime j ev st)).2.cls
        = "content-tooltip content-tooltip-invisible" :=
  ⟨rfl, rfl, rfl, rfl, rfl⟩

theorem isNormalRow_skipMarker (k : Nat) : isNormalRow (skipMarker k) = false := by
  rw [Bool.eq_false_iff]
  intro htrue
  have hpre : normalRowMark.data <+: (skipMarker k).data :=
    List.isPrefixOf_iff_prefix.mp htrue
  obtain ⟨t, ht⟩ := hpre
  have hdata : (skipMarker k).data
      = ("<div class='heatmap-skip-line'>" : String).data
        ++ ((toString k ++ " lines skipped</div>") : String).data := by
    simp [skipMarker, String.data_append]
  rw [hdata] at ht
  have h1 : (("<div class='heatmap-skip-line'>" : String).data
      ++ ((toString k ++ " lines skipped</div>") : String).data).take 22
      = ("<div class='heatmap-skip-line'>" : String).data.take 22 :=
    List.take_append_of_le_length (by decide)
  have h2 : (normalRowMark.data ++ t).take 22 = normalRowMark.data.take 22 :=
    List.take_append_of_le_length (by decide)
  rw [← ht] at h1
  rw [h2] at h1
  exact absurd h1 (by decide)

/-- C8: a `'skip'` entry is rendered as exactly one collapsed marker
(one output fragment, at the entry's own index) whose text is the count
followed by `' lines skipped'`, carrying the `heatmap-skip-line` class;
the marker is not matched by the interactive-row selector, so it is
never among the fragments that get hover handlers bound. -/
theorem claim_C8_skip_marker (hl : String → String) (self : CodeHeatmapObj)
    (stats : FileStats) (i k : Nat)
    (h : stats.srcCode.get? i = some (SrcEntry.skip k)) :
    (renderOutputs hl self stats).length = stats.srcCode.length
    ∧ (renderOutputs hl self stats).get? i = some (skipMarker k)
    ∧ skipMarker k
        = "<div class='heatmap-skip-line'>" ++ toString k ++ " lines skipped</div>"
    ∧ isNormalRow (skipMarker k) = false
    ∧ skipMarker k ∉ hoverTargets (renderOutputs hl self stats) := by
  refine ⟨?_, ?_, rfl, isNormalRow_skipMarker k, ?_⟩
  · rw [renderOutputs, renderCodeAux_outputs, List.length_map]
  · rw [renderOutputs, renderCodeAux_outputs, List.get?_map, h]
    rfl
  · intro hmem
    have hsel := (List.mem_filter.mp hmem).2
    simp [isNormalRow_skipMarker] at hsel

/-- C9: `formatSrcLine_` is deterministic and side-effect-free: it
returns the `CodeHeatmap` object unchanged, a call made after another
call yields the same markup as a fresh call, and two calls on different
lines commute (same pair of strings in either order). -/
theorem claim_C9_formatter_pure (hl : String → String)
    (self : CodeHeatmapObj) (n₁ n₂ : Nat) (c₁ c₂ : String)
    (t₁ t₂ : Option ℚ) :
    (formatSrcLineSt hl self n₁ c₁ t₁).1 = self
    ∧ (formatSrcLineSt hl (formatSrcLineSt hl self n₂ c₂ t₂).1 n₁ c₁ t₁).2
        = (formatSrcLineSt hl self n₁ c₁ t₁).2
    ∧ ((formatSrcLineSt hl (formatSrcLineSt hl self n₂ c₂ t₂).1 n₁ c₁ t₁).2,
        (formatSrcLineSt hl (formatSrcLineSt hl self n₁ c₁ t₁).1 n₂ c₂ t₂).2)
        = ((formatSrcLineSt hl self n₁ c₁ t₁).2,
            (formatSrcLineSt hl self n₂ c₂ t₂).2) :=
  ⟨rfl, rfl, rfl⟩

/-- C4: when the report's `runTime` equals the fixed minimum bound
`MIN_RUN_TIME = 0.000001`, the colour domain is a single point; the
mapper raises no error (it is a total function here) and returns the
light endpoint colour `MIN_RUN_COLOR` for every input time. -/
theorem claim_C4_degenerate_domain (t : ℝ) :
    heatmapScale MIN_RUN_TIME t = MIN_RUN_COLOR := by
  have hne : MIN_RUN_TIME ≠ 0 := ne_of_gt min_run_time_pos
  unfold heatmapScale deinterpolateLog
  rw [div_self hne, Real.log_one, if_pos rfl]
  unfold interpolateRgb MIN_RUN_COLOR MAX_RUN_COLOR
  have hr : clamp255 (nogamma ((235:ℤ):ℝ) ((71:ℤ):ℝ) 0) = 235 :=
    chan_eval _ _ _ _ (by norm_num) (by norm_num) (by norm_num) (by norm_num) (by norm_num)
  have hg : clamp255 (nogamma ((250:ℤ):ℝ) ((209:ℤ):ℝ) 0) = 250 :=
    chan_eval _ _ _ _ (by norm_num) (by norm_num) (by norm_num) (by norm_num) (by norm_num)
  simp only [hr, hg]

/-- C5 counterexample: with `runTime = 10`, the concrete times
`cexT1 = 1e-6·(1e7)^(1/4)` and `cexT2 = 1e-6·(1e7)^(0.2501)` satisfy
`0 < cexT1 < cexT2 ≤ 10`, yet the mapper produces the identical
displayed colour for both (8-bit rounding collapses the two
interpolation parameters `0.25` and `0.2501`), so the colour for the
smaller time is not strictly lighter, refuting the claim as stated. -/
theorem claim_C5_counterexample :
    0 < cexT1 ∧ cexT1 < cexT2 ∧ cexT2 ≤ 10
    ∧ heatmapScale 10 cexT1 = heatmapScale 10 cexT2
    ∧ ¬ strictlyLighter (heatmapScale 10 cexT1) (heatmapScale 10 cexT2) := by
  have hratio : (0:ℝ) < 10 / MIN_RUN_TIME := lt_trans one_pos ratio_gt_one
  refine ⟨?_, ?_, ?_, ?_, ?_⟩
  · exact mul_pos min_run_time_pos (Real.rpow_pos_of_pos hratio _)
  · unfold cexT1 cexT2
    have h := (Real.rpow_lt_rpow_left_iff ratio_gt_one).mpr
      (show (1:ℝ)/4 < 2501/10000 by norm_num)
    exact mul_lt_mul_of_pos_left h min_run_time_pos
  · unfold cexT2
    have h := (Real.rpow_le_rpow_left_iff ratio_gt_one).mpr
      (show (2501:ℝ)/10000 ≤ 1 by norm_num)
    have h10 : MIN_RUN_TIME * ((10:ℝ) / MIN_RUN_TIME) ^ ((1:ℝ)) = 10 := by
      rw [Real.rpow_one, mul_div_cancel₀ _ (ne_of_gt min_run_time_pos)]
    calc MIN_RUN_TIME * ((10:ℝ) / MIN_RUN_TIME) ^ ((2501:ℝ)/10000)
        ≤ MIN_RUN_TIME * ((10:ℝ) / MIN_RUN_TIME) ^ ((1:ℝ)) :=
          mul_le_mul_of_nonneg_left h (le_of_lt min_run_time_pos)
      _ = 10 := h10
  · rw [hscale_cexT1, hscale_cexT2]
  · rw [hscale_cexT1, hscale_cexT2]
    exact fun h => h.2 rfl

/-- C5 amended: for `0 < t1 < t2 ≤ runTime` (with a non-degenerate
domain, `MIN_RUN_TIME < runTime`) the logarithmic interpolation
parameter is strictly increasing and the displayed colour for `t1` is
lighter than or equal to the colour for `t2` on every channel; strict
lightness of the displayed colour can fail because the channels are
rounded to 8 bits (see the counterexample). -/
theorem claim_C5_amended (maxT t1 t2 : ℝ) (hmax : MIN_RUN_TIME < maxT)
    (h1 : 0 < t1) (h12 : t1 < t2) (h2 : t2 ≤ maxT) :
    deinterpolateLog MIN_RUN_TIME maxT t1 < deinterpolateLog MIN_RUN_TIME maxT t2
    ∧ weaklyLighter (heatmapScale maxT t1) (heatmapScale maxT t2) := by
  have hb : 1 < maxT / MIN_RUN_TIME := (one_lt_div min_run_time_pos).mpr hmax
  have hlogpos : 0 < Real.log (maxT / MIN_RUN_TIME) := Real.log_pos hb
  have hlt : deinterpolateLog MIN_RUN_TIME maxT t1 < deinterpolateLog MIN_RUN_TIME maxT t2 := by
    unfold deinterpolateLog
    rw [if_neg (ne_of_gt hlogpos), if_neg (ne_of_gt hlogpos)]
    have hnum : Real.log (t1 / MIN_RUN_TIME) < Real.log (t2 / MIN_RUN_TIME) :=
      Real.log_lt_log (div_pos h1 min_run_time_pos) (by have := min_run_time_pos; gcongr)
    gcongr
  refine ⟨hlt, ?_, ?_, ?_⟩ <;>
    · unfold heatmapScale interpolateRgb MIN_RUN_COLOR MAX_RUN_COLOR
      exact clamp255_mono (chan_anti _ _ _ _ (by norm_num) (le_of_lt hlt))

/-! ## Concrete inputs for the witnesses -/

/-- Identity in place of the external `hljs.highlight` collaborator. -/
def wHl : String → String := fun s => s

/-- A constant colour in place of the abstract d3 scale. -/
def wScale : ℚ → String := fun _ => "rgb(235, 250, 235)"

/-- A concrete `CodeHeatmap` object (`runTime = 10`). -/
def wSelf : CodeHeatmapObj :=
  ⟨1 / 1000000, 10, "#ebfaeb", "#47d147", wScale⟩

/-- The end-to-end example file of the spec: two `'line'` entries around
one `'skip'` entry, with line 1 executed and line 5 never executed. -/
def wStats : FileStats :=
  ⟨"example.py",
    [SrcEntry.line 1 "a = 1", SrcEntry.skip 3, SrcEntry.line 5 "b = 2"],
    fun n => if n = 1 then some 2 else none,
    fun n => if n = 1 then some 4 else none⟩

/-- A file whose entries are all `'skip'`. -/
def wSkipStats : FileStats :=
  ⟨"allskip.py", [SrcEntry.skip 3, SrcEntry.skip 2],
    fun _ => none, fun _ => none⟩

/-- A concrete number-to-string coercion. -/
def wStr : Option ℚ → String
  | none => "undefined"
  | some q => toString q

/-- A second, different concrete colour mapper. -/
def wScaleB : ℚ → String := fun _ => "rgb(0, 0, 0)"

/-- A concrete mouse event. -/
def wEv : MouseEvent := ⟨3, 4⟩

/-- A concrete initial row/tooltip state (row normal, tooltip hidden). -/
def wSt : RowEl × TooltipEl :=
  (⟨"heatmap-src-line-normal"⟩,
    ⟨"content-tooltip content-tooltip-invisible", "", 0, 0⟩)

/-- Witness for C2 at the spec's end-to-end example: position 0 is the
`'line' 1` entry, whose recorded time 2 and count 4 round-trip. -/
theorem claim_C2_witness :
    (lineNums wStats.srcCode).get? 0 = some 1
    ∧ wStats.heatmap 1 = some 2
    ∧ wStats.executionCount 1 = some 4
    ∧ (objGet (renderCode_ wHl wSelf wStats).timeMap 0 = some (some 2)
        ∧ objGet (renderCode_ wHl wSelf wStats).countMap 0 = some (some 4)) :=
  ⟨by decide, by decide, by decide,
    claim_C2_lookup_roundtrip wHl wSelf wStats 0 1 2 4 (by decide) (by decide) (by decide)⟩

/-- Witness for C10 at a concrete two-skip file. -/
theorem claim_C10_witness :
    (∀ e ∈ wSkipStats.srcCode, isSkip e = true)
    ∧ ((renderCode_ wHl wSelf wSkipStats).timeMap = []
        ∧ (renderCode_ wHl wSelf wSkipStats).countMap = []
        ∧ (renderCode_ wHl wSelf wSkipStats).srcCode
            = String.join ((skipCounts wSkipStats.srcCode).map skipMarker)) :=
  ⟨by decide, claim_C10_all_skipped wHl wSelf wSkipStats (by decide)⟩

/-- Witness for C3 on the rendered example file: position 0 has a
recorded, consistent time/count pair (2 s, 4 runs). -/
theorem claim_C3_witness :
    jsTruthy (jsGet (renderCode_ wHl wSelf wStats).timeMap 0)
        = jsTruthy (jsGet (renderCode_ wHl wSelf wStats).countMap 0)
    ∧ (((jsTruthy (jsGet (renderCode_ wHl wSelf wStats).timeMap 0)
            && jsTruthy (jsGet (renderCode_ wHl wSelf wStats).countMap 0)) = false →
          onMouseover wStr (renderCode_ wHl wSelf wStats) 10 0 wEv wSt = wSt)
      ∧ (∀ t c : ℚ, jsGet (renderCode_ wHl wSelf wStats).timeMap 0 = some t →
          jsGet (renderCode_ wHl wSelf wStats).countMap 0 = some c →
          (jsTruthy (jsGet (renderCode_ wHl wSelf wStats).timeMap 0)
              && jsTruthy (jsGet (renderCode_ wHl wSelf wStats).countMap 0)) = true →
          onMouseover wStr (renderCode_ wHl wSelf wStats) 10 0 wEv wSt
            = (⟨"heatmap-src-line-highlight"⟩,
                ⟨"content-tooltip content-tooltip-visible",
                  "<p><b>Time spent: </b>" ++ wStr (some t) ++ " s</p>"
                    ++ "<p><b>Total running time: </b>" ++ wStr (some 10) ++ " s</p>"
                    ++ "<p><b>Percentage: </b>" ++ wStr (some (100 * (t / 10))) ++ "%</p>"
                    ++ "<p><b>Run count: </b>" ++ wStr (some c) ++ "</p>",
                  wEv.pageX, wEv.pageY⟩))) :=
  ⟨by decide,
    claim_C3_hover_enter wStr (renderCode_ wHl wSelf wStats) 10 0 wEv wSt (by decide)⟩

/-- Witness for C6 at a concrete zero-time line. -/
theorem claim_C6_witness :
    jsTruthy (some 0) = false
    ∧ (formatSrcLine_ wHl ⟨1 / 1000000, 10, "#ebfaeb", "#47d147", wScale⟩ 7 "x = 0" (some 0)
          = formatSrcLine_ wHl ⟨1 / 1000000, 10, "#ebfaeb", "#47d147", wScaleB⟩ 7 "x = 0" (some 0)
      ∧ formatSrcLine_ wHl ⟨1 / 1000000, 10, "#ebfaeb", "#47d147", wScale⟩ 7 "x = 0" (some 0)
          = formatSrcLine_ wHl ⟨1 / 1000000, 10, "#ebfaeb", "#47d147", emptyScale⟩ 7 "x = 0" none) :=
  ⟨by decide,
    claim_C6_no_log_for_unexecuted wHl wScale wScaleB (1 / 1000000) 10 "#ebfaeb" "#47d147"
      7 "x = 0" (some 0) (by decide)⟩

/-- Witness for C8 at the example file's `'skip' 3` entry (index 1). -/
theorem claim_C8_witness :
    wStats.srcCode.get? 1 = some (SrcEntry.skip 3)
    ∧ ((renderOutputs wHl wSelf wStats).length = wStats.srcCode.length
      ∧ (renderOutputs wHl wSelf wStats).get? 1 = some (skipMarker 3)
      ∧ skipMarker 3
          = "<div class='heatmap-skip-line'>" ++ toString (3 : Nat) ++ " lines skipped</div>"
      ∧ isNormalRow (skipMarker 3) = false
      ∧ skipMarker 3 ∉ hoverTargets (renderOutputs wHl wSelf wStats)) :=
  ⟨by decide, claim_C8_skip_marker wHl wSelf wStats 1 3 (by decide)⟩

/-- Witness for the amended C5 at `runTime = 10`, `t1 = MIN_RUN_TIME`,
`t2 = 10`. -/
theorem claim_C5_witness :
    MIN_RUN_TIME < (10:ℝ) ∧ (0:ℝ) < MIN_RUN_TIME ∧ MIN_RUN_TIME < (10:ℝ)
    ∧ (10:ℝ) ≤ 10
    ∧ (deinterpolateLog MIN_RUN_TIME 10 MIN_RUN_TIME
          < deinterpolateLog MIN_RUN_TIME 10 10
      ∧ weaklyLighter (heatmapScale 10 MIN_RUN_TIME) (heatmapScale 10 10)) :=
  ⟨by norm_num [MIN_RUN_TIME], by norm_num [MIN_RUN_TIME], by norm_num [MIN_RUN_TIME],
    le_refl 10,
    claim_C5_amended 10 MIN_RUN_TIME 10 (by norm_num [MIN_RUN_TIME])
      (by norm_num [MIN_RUN_TIME]) (by norm_num [MIN_RUN_TIME]) (le_refl 10)⟩

end CodeHeatmapSpec
